import Mathlib

/-
Verification development for the BiliCut video-analysis application.

Shallow embedding of the JavaScript/TypeScript sources:
  - server.js                   (Express backend: platform detection, id extraction,
                                 audio clipping, ASR segment mapping, the analyze route)
  - services/geminiService.ts   (chat session, fabricated-content generation)
  - services/bilibiliService.ts (BV id extraction, proxy metadata fetch)
  - services/api.ts             (client-side acquisition cascade analyzeVideo)

External effects (HTTP fetches, generative-model calls) are modelled by explicit
outcome values passed in as parameters, and issued network requests are recorded
in an explicit trace, so that every code path is a total computable function.
-/

-- ===================== Data model (src/unnamed/part_001, types.ts) =====================

/-- TranscriptSegment from types.ts: id, text, timestamp (display string), startTime. -/
structure TranscriptSegment where
  id : String
  text : String
  timestamp : String
  startTime : Nat
deriving DecidableEq, Repr

/-- Highlight from types.ts: id, title, startTime, endTime, color, optional description. -/
structure Highlight where
  id : String
  title : String
  startTime : Nat
  endTime : Nat
  color : String
  description : Option String
deriving DecidableEq, Repr

/-- VideoData from types.ts. Optional fields category, isTranscriptSimulated and
isAiTranscribed are modelled as Option / Bool (absent boolean = false). -/
structure VideoData where
  platform : String
  bvid : String
  title : String
  author : String
  category : Option String
  duration : Nat
  thumbnail : String
  highlights : List Highlight
  transcript : List TranscriptSegment
  isTranscriptSimulated : Bool
  isAiTranscribed : Bool
deriving DecidableEq, Repr

-- ===================== server.js helpers =====================

/-- server.js formatTime: minutes are rendered without padding, the seconds are
padded to two characters with padStart(2, the zero character). -/
def padStart2 (s : String) : String :=
  if s.length < 2 then String.mk (List.replicate (2 - s.length) '0') ++ s else s

/-- server.js formatTime(seconds): template `m:s.padStart(2)`.  Math.floor on a
non-negative integral input is the identity, so Nat division and remainder model
the two floors. -/
def formatTime (seconds : Nat) : String :=
  Nat.repr (seconds / 60) ++ ":" ++ padStart2 (Nat.repr (seconds % 60))

/-- Boolean test that the first list is a prefix of the second (used to model
JavaScript String.prototype.startsWith and String.prototype.includes). -/
def listStartsWith : List Char → List Char → Bool
  | [], _ => true
  | _ :: _, [] => false
  | a :: as, b :: bs => a == b && listStartsWith as bs

/-- Boolean test that the first list occurs as a contiguous sublist of the second. -/
def listContains (needle : List Char) : List Char → Bool
  | [] => listStartsWith needle []
  | c :: rest => listStartsWith needle (c :: rest) || listContains needle rest

/-- JavaScript url.includes(needle). -/
def strIncludes (hay needle : String) : Bool :=
  listContains needle.data hay.data

/-- JavaScript url.startsWith(needle). -/
def strStartsWith (hay needle : String) : Bool :=
  listStartsWith needle.data hay.data

/-- server.js detectPlatform(url). -/
def detectPlatform (url : String) : String :=
  if strIncludes url "bilibili.com" || strStartsWith url "BV" then "bilibili"
  else if strIncludes url "youtube.com" || strIncludes url "youtu.be" then "youtube"
  else "unknown"

-- ===================== BV id extraction =====================
-- The regex (BV[a-zA-Z0-9]+) appears twice: services/bilibiliService.ts extractBvid
-- and the bilibili branch of server.js extractId.  JavaScript String.prototype.match
-- without the g flag returns the leftmost match, with the greedy + taking the
-- longest run of alphanumerics at that position.

/-- The regex character class [a-zA-Z0-9] (ASCII alphanumerics). -/
def isAlnumChar (c : Char) : Bool :=
  (('a' ≤ c) && (c ≤ 'z')) || (('A' ≤ c) && (c ≤ 'Z')) || (('0' ≤ c) && (c ≤ '9'))

/-- Greedy run of [a-zA-Z0-9] characters at the head of the list. -/
def bvRun (l : List Char) : List Char :=
  l.takeWhile isAlnumChar

/-- Attempt to match the regex (BV[a-zA-Z0-9]+) anchored at the head of the list:
literal B, literal V, then a non-empty greedy alphanumeric run. -/
def bvMatchAt : List Char → Option (List Char)
  | b :: v :: rest =>
      if b = 'B' then
        if v = 'V' then
          if bvRun rest = [] then none else some ('B' :: 'V' :: bvRun rest)
        else none
      else none
  | _ => none

/-- Left-to-right scan: first position where the anchored match succeeds, as the
JavaScript regex engine does for an unanchored pattern. -/
def bvScan : List Char → Option (List Char)
  | [] => none
  | c :: rest =>
      match bvMatchAt (c :: rest) with
      | some r => some r
      | none => bvScan rest

/-- services/bilibiliService.ts extractBvid(inputUrl): inputUrl.match(regex),
returning the matched substring or null. -/
def extractBvid (inputUrl : String) : Option String :=
  (bvScan inputUrl.data).map fun l => String.mk l

/-- server.js extractId(url, platform).  The youtube branch delegates to the
external library call ytdl.getVideoID, modelled by the ytdl parameter
(none: the library found no id / threw).  Any other platform yields null. -/
def extractId (ytdl : String → Option String) (url platform : String) : Option String :=
  if platform = "bilibili" then extractBvid url
  else if platform = "youtube" then ytdl url
  else none

/-- Which platform handler the analyze route dispatches to. -/
inductive Dispatch where
  | bili (bvid : String)
  | yt (videoId : String)
deriving DecidableEq, Repr

/-- server.js POST /api/analyze up to handler dispatch: detect the platform,
extract the id, reject with HTTP 400 "Invalid Video URL" when the id is null,
otherwise dispatch to handleBilibili / handleYoutube (which are the only places
that issue upstream network calls), or reject "Unsupported Platform". -/
def analyzeRoute (ytdl : String → Option String) (url : String) : Except String Dispatch :=
  let platform := detectPlatform url
  match extractId ytdl url platform with
  | none => Except.error "Invalid Video URL"
  | some id =>
      if platform = "bilibili" then Except.ok (Dispatch.bili id)
      else if platform = "youtube" then Except.ok (Dispatch.yt id)
      else Except.error "Unsupported Platform"

-- ===================== Audio clipping (server.js lines 167 and 237) =====================

/-- The hard ceiling 20 * 1024 * 1024 bytes (20 MiB). -/
def audioLimit : Nat := 20 * 1024 * 1024

/-- server.js: bufferToUse = byteLength > 20 MiB ? buffer.slice(0, 20 MiB) : buffer.
The identical expression appears in handleBilibili and handleYoutube; slice(0, n)
on a buffer is List.take n.  Bytes are modelled as Nat. -/
def clipAudio (buf : List Nat) : List Nat :=
  if buf.length > audioLimit then buf.take audioLimit else buf

-- ===================== ASR segment mapping (server.js transcribeAudioWithGemini) =====================

/-- One entry of the JSON transcript array returned by the transcription model. -/
structure AsrItem where
  startTime : Nat
  text : String
deriving DecidableEq, Repr

/-- server.js transcribeAudioWithGemini, mapping step (lines 103-108):
json.transcript.map with synthetic sequential ids and derived timestamp. -/
def asrToSegments (items : List AsrItem) : List TranscriptSegment :=
  items.enum.map fun p =>
    { id := "ai-t" ++ toString p.1
      startTime := p.2.startTime
      text := p.2.text
      timestamp := formatTime p.2.startTime }

-- ===================== Gemini service (src/unnamed/part_000, geminiService.ts) =====================

/-- The cached chat session state: the systemInstruction given to
ai.chats.create.  The turn history lives inside the external Chat object, so the
briefing string is the relevant session state. -/
structure ChatState where
  systemInstruction : String
deriving DecidableEq, Repr

/-- geminiService.ts initializeChat: transcript.slice(0, 300), each segment as
an open bracket, the timestamp, a closing bracket, a space and the text, joined
with newlines. -/
def buildContext (transcript : List TranscriptSegment) : String :=
  String.intercalate "\n"
    ((transcript.take 300).map fun t => "[" ++ t.timestamp ++ "] " ++ t.text)

/-- The fixed surrounding text of the systemInstruction template literal in
initializeChat (whitespace of the original template is not reproduced
verbatim; only the fact that it is a fixed wrapper matters). -/
def chatInstructionHeader : String :=
  "You are an AI learning assistant for a video.\n" ++
  "You have access to the transcript (or a summary) of the video provided below.\n" ++
  "Answer the user questions based primarily on this transcript.\n" ++
  "If the answer is not in the transcript, use your general knowledge but mention that it was not explicitly in the video.\n" ++
  "Keep answers concise, helpful, and encouraging.\n\nTRANSCRIPT/CONTENT SUMMARY:\n"

/-- The full systemInstruction string built by initializeChat. -/
def chatSystemInstruction (transcript : List TranscriptSegment) : String :=
  chatInstructionHeader ++ buildContext transcript

/-- geminiService.ts initializeChat(transcript): unconditionally overwrites the
module-level chatSession with a freshly created chat. -/
def initializeChat (transcript : List TranscriptSegment) (prior : Option ChatState) :
    Option ChatState :=
  some { systemInstruction := chatSystemInstruction transcript }

/-- Outcome of the external chatSession.sendMessage call: the call may reject,
or resolve with response.text either absent or some string. -/
inductive ChatOutcome where
  | failure
  | success (text : Option String)
deriving DecidableEq, Repr

/-- geminiService.ts sendMessageToGemini(message): throws when chatSession is
null; otherwise returns response.text when truthy (a non-empty string), the
fixed fallback string when response.text is empty or undefined, and the fixed
apology string when the call rejects. -/
def sendMessageToGemini (session : Option ChatState) (message : String)
    (o : ChatOutcome) : Except String String :=
  match session with
  | none => Except.error "Chat session not initialized"
  | some _ =>
      match o with
      | ChatOutcome.failure =>
          Except.ok "Sorry, I encountered an error while processing your request."
      | ChatOutcome.success none => Except.ok "I couldn\x27t generate a response."
      | ChatOutcome.success (some t) =>
          Except.ok (if t = "" then "I couldn\x27t generate a response." else t)

/-- The pair produced by generateVideoContent. -/
structure FabResult where
  highlights : List Highlight
  transcript : List TranscriptSegment
deriving DecidableEq, Repr

/-- Outcome of the external ai.models.generateContent call inside
generateVideoContent, after JSON decoding:
  - failure: the call rejected;
  - empty: the call resolved but response.text was falsy (undefined or empty),
    so the code throws its own Empty-response error inside the try block;
  - malformed: response.text was non-empty but JSON.parse threw;
  - parsed r: response.text was non-empty and JSON.parse produced r. -/
inductive GenOutcome where
  | failure
  | empty
  | malformed
  | parsed (r : FabResult)
deriving DecidableEq, Repr

/-- geminiService.ts generateVideoContent(title, description, duration,
category, author): one generative call inside try/catch; every failing path
(rejection, empty response, JSON parse error) is caught and returns the
explicit empty pair; a parsed response is returned as-is, unvalidated. -/
def generateVideoContent (title description : String) (duration : Nat)
    (category author : String) (o : GenOutcome) : FabResult :=
  match o with
  | GenOutcome.parsed r => r
  | _ => { highlights := [], transcript := [] }

-- ===================== Proxy metadata fetch (bilibiliService.ts) =====================

/-- The metadata shape returned by fetchBilibiliVideoInfo on success. -/
structure ProxyMeta where
  bvid : String
  title : String
  author : String
  duration : Nat
  thumbnail : String
  description : String
deriving DecidableEq, Repr

/-- Outcome of the fetch through the allorigins proxy: rejection, a non-ok HTTP
response, or a JSON body with the bilibili domain-level code and data. -/
inductive ProxyResponse where
  | networkFail
  | notOk
  | body (code : Int) (data : ProxyMeta)
deriving DecidableEq, Repr

/-- bilibiliService.ts fetchBilibiliVideoInfo(bvid): throws on network failure,
on response.ok false, and on a non-zero domain code; otherwise returns the
projected metadata.  The bvid parameter only shapes the request URL. -/
def fetchBilibiliVideoInfo (bvid : String) (resp : ProxyResponse) :
    Except String ProxyMeta :=
  match resp with
  | ProxyResponse.networkFail => Except.error "fetch failed"
  | ProxyResponse.notOk => Except.error "Network response was not ok"
  | ProxyResponse.body code data =>
      if code ≠ 0 then Except.error "Bilibili API Error" else Except.ok data

-- ===================== Client acquisition cascade (api.ts analyzeVideo) =====================

/-- The JSON body the backend analyze route responds with (both handlers
produce this shape; handleYoutube stores its videoId in the bvid field). -/
structure BackendJson where
  platform : String
  bvid : String
  title : String
  author : String
  category : String
  duration : Nat
  thumbnail : String
  description : String
  transcript : List TranscriptSegment
  subtitleSource : String
deriving DecidableEq, Repr

/-- Outcome of the fetch to the local backend: rejection (server not running),
a non-ok HTTP status, or an ok response with a JSON body. -/
inductive BackendOutcome where
  | unreachable
  | notOk
  | ok (json : BackendJson)
deriving DecidableEq, Repr

/-- Network requests the client issues, in order. -/
inductive NetCall where
  | backendPost
  | proxyFetch
deriving DecidableEq, Repr

/-- analyzeVideo result: the record plus the backend / ai-simulated source tag. -/
structure AnalyzeResult where
  data : VideoData
  source : String
deriving DecidableEq, Repr

/-- JavaScript s1 OR s2 on strings (empty string is falsy). -/
def orElseStr (s d : String) : String :=
  if s = "" then d else s

/-- JavaScript n OR d on numbers (zero is falsy). -/
def orElseNat (n d : Nat) : Nat :=
  if n = 0 then d else n

/-- JavaScript access of a possibly-absent string field followed by OR d. -/
def orElseOpt (c : Option String) (d : String) : String :=
  match c with
  | none => d
  | some s => orElseStr s d

/-- The metaInfo record built in the offline branch of analyzeVideo: either the
proxy result (which carries no category field) or the fixed placeholder. -/
structure FallbackMeta where
  bvid : String
  title : String
  author : String
  duration : Nat
  thumbnail : String
  description : String
  category : Option String
deriving DecidableEq, Repr

/-- api.ts analyzeVideo(url).  The gen parameter abstracts the awaited
generateVideoContent call (its argument order is title, description, duration,
category, author; generateVideoContent above pins its behaviour down from the
raw call outcome).  The backend and proxy parameters are the outcomes of the
two possible fetches; the second component of the result is the ordered list of
network requests issued.

Path 1 (backend ok): classify subtitleSource into the isSimulated and
isAiTranscribed flags; with a real transcript, generate only highlights from
the first 15000 characters of the joined transcript text; otherwise replace
both transcript and highlights by the fabricated pair.
Path 2 (backend unreachable or non-ok status): extract the BV id (throwing
"Invalid URL" when null), fetch metadata through the proxy with a fixed
placeholder on failure, and fabricate transcript and highlights. -/
def analyzeVideo (gen : String → String → Nat → String → String → FabResult)
    (url : String) (backend : BackendOutcome) (proxy : ProxyResponse) :
    Except String AnalyzeResult × List NetCall :=
  match backend with
  | BackendOutcome.ok json =>
      let isSimulated : Bool :=
        !(json.subtitleSource = "official") && !(json.subtitleSource = "ai_transcription")
      let isAiTranscribed : Bool := json.subtitleSource = "ai_transcription"
      if !isSimulated && decide (0 < json.transcript.length) then
        let transcriptText :=
          (String.intercalate " " (json.transcript.map fun t => t.text)).take 15000
        let aiContent :=
          gen json.title ("TRANSCRIPT_CONTEXT: " ++ transcriptText) json.duration
            json.category json.author
        (Except.ok
          { data :=
              { platform := orElseStr json.platform "bilibili"
                bvid := json.bvid
                title := json.title
                author := json.author
                category := some json.category
                duration := json.duration
                thumbnail := json.thumbnail
                highlights := aiContent.highlights
                transcript := json.transcript
                isTranscriptSimulated := isSimulated
                isAiTranscribed := isAiTranscribed }
            source := "backend" },
          [NetCall.backendPost])
      else
        let aiContent :=
          gen json.title json.description json.duration json.category json.author
        (Except.ok
          { data :=
              { platform := orElseStr json.platform "bilibili"
                bvid := json.bvid
                title := json.title
                author := json.author
                category := some json.category
                duration := json.duration
                thumbnail := json.thumbnail
                highlights := aiContent.highlights
                transcript := aiContent.transcript
                isTranscriptSimulated := isSimulated
                isAiTranscribed := isAiTranscribed }
            source := "backend" },
          [NetCall.backendPost])
  | _ =>
      match extractBvid url with
      | none => (Except.error "Invalid URL", [NetCall.backendPost])
      | some bvid =>
          let metaInfo : FallbackMeta :=
            match fetchBilibiliVideoInfo bvid proxy with
            | Except.ok i =>
                { bvid := i.bvid, title := i.title, author := i.author
                  duration := i.duration, thumbnail := i.thumbnail
                  description := i.description, category := none }
            | Except.error _ =>
                { bvid := bvid, title := "Video (Offline Mode)", author := "Unknown"
                  duration := 600, thumbnail := ""
                  description := "Could not fetch metadata."
                  category := some "General" }
          let aiContent :=
            gen (orElseStr metaInfo.title "Unknown") (orElseStr metaInfo.description "")
              (orElseNat metaInfo.duration 600) (orElseOpt metaInfo.category "General")
              (orElseStr metaInfo.author "Unknown")
          (Except.ok
            { data :=
                { platform := "bilibili"
                  bvid := metaInfo.bvid
                  title := orElseStr metaInfo.title "Untitled"
                  author := orElseStr metaInfo.author "Unknown"
                  category := metaInfo.category
                  duration := orElseNat metaInfo.duration 600
                  thumbnail := orElseStr metaInfo.thumbnail ""
                  highlights := aiContent.highlights
                  transcript := aiContent.transcript
                  isTranscriptSimulated := true
                  isAiTranscribed := false }
              source := "ai-simulated" },
            [NetCall.backendPost, NetCall.proxyFetch])

/-- The property claimed of a returned match: the literal characters B and V
followed by a non-empty run of ASCII alphanumerics. -/
def bvPattern (l : List Char) : Prop :=
  ∃ run, l = 'B' :: 'V' :: run ∧ run ≠ [] ∧ ∀ c ∈ run, isAlnumChar c = true

/-- The input contains, anywhere, a substring matching the BV pattern. -/
def hasBvSubstring (l : List Char) : Prop :=
  ∃ pre mid post, l = pre ++ mid ++ post ∧ bvPattern mid

/-- Decidable equality for Except values, so concrete runs of the pipeline can
be checked by decide. -/
instance {ε α : Type} [DecidableEq ε] [DecidableEq α] : DecidableEq (Except ε α)
  | Except.ok a, Except.ok b =>
      if h : a = b then isTrue (by rw [h]) else isFalse (by intro hc; cases hc; exact h rfl)
  | Except.error a, Except.error b =>
      if h : a = b then isTrue (by rw [h]) else isFalse (by intro hc; cases hc; exact h rfl)
  | Except.ok _, Except.error _ => isFalse (by intro hc; cases hc)
  | Except.error _, Except.ok _ => isFalse (by intro hc; cases hc)

-- ===================== Theorems =====================

/-- C3: every downloaded audio payload larger than 20 MiB is truncated to
exactly its leading 20 MiB before submission to the transcription capability,
payloads of at most 20 MiB are submitted unchanged, and the clipping step is
total (it returns a prefix of the payload, never an error). -/
theorem clipAudio_truncates (buf : List Nat) :
    (buf.length > audioLimit →
        clipAudio buf = buf.take audioLimit ∧ (clipAudio buf).length = audioLimit) ∧
    (buf.length ≤ audioLimit → clipAudio buf = buf) ∧
    ∃ rest, buf = clipAudio buf ++ rest := by
  refine ⟨fun h => ⟨by simp [clipAudio, h], ?_⟩, fun h => ?_, ?_⟩
  · simp [clipAudio, h, List.length_take]
    omega
  · have hn : ¬ (buf.length > audioLimit) := by omega
    simp [clipAudio, hn]
  · by_cases h : buf.length > audioLimit
    · refine ⟨buf.drop audioLimit, ?_⟩
      simp [clipAudio, h]
    · refine ⟨[], ?_⟩
      simp [clipAudio, h]

/-- Witness for C3 at a concrete oversize payload. -/
theorem clipAudio_truncates_witness :
    (List.replicate (audioLimit + 1) 0).length > audioLimit ∧
    clipAudio (List.replicate (audioLimit + 1) 0)
        = (List.replicate (audioLimit + 1) 0).take audioLimit ∧
    (clipAudio (List.replicate (audioLimit + 1) 0)).length = audioLimit :=
  ⟨by simp,
   ((clipAudio_truncates (List.replicate (audioLimit + 1) 0)).1 (by simp)).1,
   ((clipAudio_truncates (List.replicate (audioLimit + 1) 0)).1 (by simp)).2⟩

/-- C4: the content fabrication operation is total (it never raises to the
caller); on generative-call failure, empty response, or output that fails to
parse as JSON it returns the explicitly empty pair, and on a parsed response it
returns exactly the parsed pair. -/
theorem generateVideoContent_never_raises (title description : String) (duration : Nat)
    (category author : String) (o : GenOutcome) :
    generateVideoContent title description duration category author GenOutcome.failure
        = { highlights := [], transcript := [] } ∧
    generateVideoContent title description duration category author GenOutcome.empty
        = { highlights := [], transcript := [] } ∧
    generateVideoContent title description duration category author GenOutcome.malformed
        = { highlights := [], transcript := [] } ∧
    (generateVideoContent title description duration category author o
        = { highlights := [], transcript := [] } ∨
      ∃ r, o = GenOutcome.parsed r ∧
        generateVideoContent title description duration category author o = r) := by
  refine ⟨rfl, rfl, rfl, ?_⟩
  cases o with
  | failure => exact Or.inl rfl
  | empty => exact Or.inl rfl
  | malformed => exact Or.inl rfl
  | parsed r => exact Or.inr ⟨r, rfl, rfl⟩

/-- C5: calling send before initialize fails with the distinguishable
"Chat session not initialized" error and never yields a reply, while on an
initialized session send always returns an ok reply (never raises), whatever
the outcome of the underlying chat call. -/
theorem send_before_initialize (message : String) (o : ChatOutcome) (st : ChatState) :
    sendMessageToGemini none message o = Except.error "Chat session not initialized" ∧
    ∃ reply, sendMessageToGemini (some st) message o = Except.ok reply := by
  refine ⟨rfl, ?_⟩
  cases o with
  | failure => exact ⟨_, rfl⟩
  | success text =>
      cases text with
      | none => exact ⟨_, rfl⟩
      | some t => exact ⟨_, rfl⟩

/-- C10: on an initialized session, a successful chat call whose reply text is
empty or absent yields the fixed string "I couldn\x27t generate a response.",
which differs from the apology string returned on call failure, while a
non-empty reply is returned verbatim. -/
theorem send_empty_reply_fallback (st : ChatState) (message : String) :
    sendMessageToGemini (some st) message (ChatOutcome.success (some "")) =
        Except.ok "I couldn\x27t generate a response." ∧
    sendMessageToGemini (some st) message (ChatOutcome.success none) =
        Except.ok "I couldn\x27t generate a response." ∧
    sendMessageToGemini (some st) message ChatOutcome.failure =
        Except.ok "Sorry, I encountered an error while processing your request." ∧
    "I couldn\x27t generate a response." ≠
        "Sorry, I encountered an error while processing your request." ∧
    ∀ t : String, t ≠ "" →
      sendMessageToGemini (some st) message (ChatOutcome.success (some t)) = Except.ok t := by
  refine ⟨by simp [sendMessageToGemini], rfl, rfl, by decide, fun t ht => ?_⟩
  simp [sendMessageToGemini, ht]

/-- Witness for C10 at a concrete non-empty reply. -/
theorem send_empty_reply_fallback_witness :
    ("hello" : String) ≠ "" ∧
    sendMessageToGemini (some { systemInstruction := "" }) "q"
        (ChatOutcome.success (some "hello")) = Except.ok "hello" :=
  ⟨by decide,
   (send_empty_reply_fallback { systemInstruction := "" } "q").2.2.2.2 "hello" (by decide)⟩

/-- C6: the assistant briefing is built from exactly the first 300 transcript
segments, each rendered as the bracketed timestamp followed by a space and the
text, joined by newlines in transcript order; segments beyond the 300th never
influence the briefing, and initializing replaces any prior session with a
fresh one whose instruction embeds this briefing. -/
theorem initializeChat_briefing_cap (t : List TranscriptSegment) :
    buildContext t = String.intercalate "\n"
        ((t.take 300).map fun s => "[" ++ s.timestamp ++ "] " ++ s.text) ∧
    buildContext t = buildContext (t.take 300) ∧
    (∀ u : List TranscriptSegment, t.take 300 = u.take 300 →
        buildContext t = buildContext u) ∧
    (∀ p1 p2 : Option ChatState, initializeChat t p1 = initializeChat t p2) ∧
    (∀ p, initializeChat t p =
        some { systemInstruction := chatInstructionHeader ++ buildContext t }) := by
  refine ⟨rfl, ?_, ?_, fun p1 p2 => rfl, fun p => rfl⟩
  · unfold buildContext
    rw [List.take_take]
    norm_num
  · intro u h
    unfold buildContext
    rw [h]

/-- Witness for C6: two transcripts agreeing on their first 300 segments (one
having a 301st) produce the same briefing. -/
theorem initializeChat_briefing_cap_witness :
    (List.replicate 300 (⟨"a", "b", "c", 0⟩ : TranscriptSegment)).take 300
        = (List.replicate 301 (⟨"a", "b", "c", 0⟩ : TranscriptSegment)).take 300 ∧
    buildContext (List.replicate 300 (⟨"a", "b", "c", 0⟩ : TranscriptSegment))
        = buildContext (List.replicate 301 (⟨"a", "b", "c", 0⟩ : TranscriptSegment)) :=
  ⟨by rw [List.take_replicate, List.take_replicate]; norm_num,
   (initializeChat_briefing_cap _).2.2.1 _
     (by rw [List.take_replicate, List.take_replicate]; norm_num)⟩

/-- C7 counterexample: formatTime does not zero-pad the minutes part, so the
displayed timestamp of startTime 65 is 1:05 (four characters), not a five
character MM:SS form with a two-digit minutes part. -/
theorem formatTime_minutes_unpadded :
    formatTime 65 = "1:05" ∧
    ¬ ∃ mm ss : String, formatTime 65 = mm ++ ":" ++ ss
        ∧ mm.length = 2 ∧ ss.length = 2 := by
  refine ⟨by decide, ?_⟩
  rintro ⟨mm, ss, heq, hmm, hss⟩
  have hlen : (formatTime 65).length = 4 := by decide
  rw [heq, String.length_append, String.length_append, hmm, hss] at hlen
  have hcolon : (":" : String).length = 1 := rfl
  rw [hcolon] at hlen
  omega

/-- Helper for C7: for any value below 60 the padded seconds part has exactly
two characters. -/
theorem padded_seconds_length : ∀ x, x < 60 → (padStart2 (Nat.repr x)).length = 2 := by
  decide

/-- C7 amended: every derived displayTimestamp is the minutes count rendered as
a plain (unpadded) decimal, a colon, and the seconds zero-padded to exactly two
digits; the ASR mapping step stamps every produced segment with exactly this
formatting of its own startTime. -/
theorem formatTime_shape (n : Nat) :
    formatTime n = Nat.repr (n / 60) ++ ":" ++ padStart2 (Nat.repr (n % 60)) ∧
    (padStart2 (Nat.repr (n % 60))).length = 2 ∧
    ∀ items : List AsrItem, ∀ seg ∈ asrToSegments items,
        seg.timestamp = formatTime seg.startTime := by
  refine ⟨rfl, padded_seconds_length (n % 60) (Nat.mod_lt n (by norm_num)), ?_⟩
  intro items seg hseg
  simp only [asrToSegments, List.mem_map] at hseg
  obtain ⟨p, hp, rfl⟩ := hseg
  rfl

/-- Witness for C7 amended: a concrete ASR item list and produced segment. -/
theorem formatTime_shape_witness :
    ((⟨"ai-t0", "hi", "0:00", 0⟩ : TranscriptSegment) ∈ asrToSegments [⟨0, "hi"⟩]) ∧
    (⟨"ai-t0", "hi", "0:00", 0⟩ : TranscriptSegment).timestamp
        = formatTime (⟨"ai-t0", "hi", "0:00", 0⟩ : TranscriptSegment).startTime :=
  ⟨by decide, (formatTime_shape 0).2.2 [⟨0, "hi"⟩] _ (by decide)⟩

/-- C1 counterexample: a reachable outcome of the fabrication call (a
successfully parsed payload with a non-empty transcript and an empty highlight
list) produces, in the fabricated branch, a VideoRecord with exactly one of the
two sequences populated. -/
theorem fabricated_one_sided :
    (analyzeVideo
        (fun t d du c a => generateVideoContent t d du c a
          (GenOutcome.parsed ⟨[], [⟨"s1", "sim", "0:00", 0⟩]⟩))
        "u"
        (BackendOutcome.ok ⟨"bilibili", "BV1x", "T", "A", "General", 100, "", "D", [], "none"⟩)
        ProxyResponse.networkFail).1
      = Except.ok ⟨⟨"bilibili", "BV1x", "T", "A", some "General", 100, "", [],
          [⟨"s1", "sim", "0:00", 0⟩], true, false⟩, "backend"⟩ ∧
    ([⟨"s1", "sim", "0:00", 0⟩] : List TranscriptSegment) ≠ [] ∧
    ([] : List Highlight) = [] :=
  ⟨by decide, by decide, rfl⟩

/-- C1 amended: in the fabricated branch the returned transcript and highlights
are exactly the pair the fabrication call yields: both empty when the
generative call failed, returned an empty response or unparseable output, and
otherwise exactly the parsed payload, which the code does not constrain, so one
sequence may be populated without the other. -/
theorem fabricated_passthrough (url : String) (json : BackendJson) (o : GenOutcome)
    (proxy : ProxyResponse)
    (h1 : json.subtitleSource ≠ "official") (h2 : json.subtitleSource ≠ "ai_transcription") :
    (analyzeVideo (fun t d du c a => generateVideoContent t d du c a o) url
        (BackendOutcome.ok json) proxy).1 = Except.ok
      { data :=
          { platform := orElseStr json.platform "bilibili", bvid := json.bvid,
            title := json.title, author := json.author, category := some json.category,
            duration := json.duration, thumbnail := json.thumbnail,
            highlights := (generateVideoContent json.title json.description json.duration
                json.category json.author o).highlights,
            transcript := (generateVideoContent json.title json.description json.duration
                json.category json.author o).transcript,
            isTranscriptSimulated := true, isAiTranscribed := false },
        source := "backend" } ∧
    ((∀ r, o ≠ GenOutcome.parsed r) →
      (generateVideoContent json.title json.description json.duration
          json.category json.author o).transcript = [] ∧
      (generateVideoContent json.title json.description json.duration
          json.category json.author o).highlights = []) := by
  refine ⟨by simp [analyzeVideo, h1, h2], fun hnp => ?_⟩
  cases o with
  | failure => exact ⟨rfl, rfl⟩
  | empty => exact ⟨rfl, rfl⟩
  | malformed => exact ⟨rfl, rfl⟩
  | parsed r => exact absurd rfl (hnp r)

/-- Witness for C1 amended at a concrete backend response with subtitleSource
none and a failed fabrication call. -/
theorem fabricated_passthrough_witness :
    ("none" : String) ≠ "official" ∧ ("none" : String) ≠ "ai_transcription" ∧
    (analyzeVideo (fun t d du c a => generateVideoContent t d du c a GenOutcome.failure) "u"
        (BackendOutcome.ok ⟨"bilibili", "BV1x", "T", "A", "General", 100, "", "D", [], "none"⟩)
        ProxyResponse.networkFail).1 = Except.ok
      { data :=
          { platform := orElseStr "bilibili" "bilibili", bvid := "BV1x",
            title := "T", author := "A", category := some "General",
            duration := 100, thumbnail := "",
            highlights := (generateVideoContent "T" "D" 100
                "General" "A" GenOutcome.failure).highlights,
            transcript := (generateVideoContent "T" "D" 100
                "General" "A" GenOutcome.failure).transcript,
            isTranscriptSimulated := true, isAiTranscribed := false },
        source := "backend" } :=
  ⟨by decide, by decide,
   (fabricated_passthrough "u" ⟨"bilibili", "BV1x", "T", "A", "General", 100, "", "D", [], "none"⟩
      GenOutcome.failure ProxyResponse.networkFail (by decide) (by decide)).1⟩

/-- C2 counterexample: on the unrecognized input "not-a-video" the client
acquisition entry point does fail with its invalid-reference error, but its
network trace is non-empty: the POST to the local backend is issued before the
failure. -/
theorem invalid_url_still_calls_backend :
    (analyzeVideo (fun _ _ _ _ _ => ⟨[], []⟩) "not-a-video" BackendOutcome.notOk
        ProxyResponse.networkFail).1 = Except.error "Invalid URL" ∧
    (analyzeVideo (fun _ _ _ _ _ => ⟨[], []⟩) "not-a-video" BackendOutcome.notOk
        ProxyResponse.networkFail).2 = [NetCall.backendPost] ∧
    [NetCall.backendPost] ≠ ([] : List NetCall) :=
  ⟨by decide, by decide, by decide⟩

/-- C2 amended: on "not-a-video" no platform pattern matches; the server route
rejects with Invalid Video URL without dispatching any platform handler (so no
upstream network call is issued server-side), and the client entry point fails
with Invalid URL after issuing exactly one network call: the POST to the local
backend. -/
theorem invalid_url_rejected (ytdl : String → Option String) (proxy : ProxyResponse)
    (gen : String → String → Nat → String → String → FabResult)
    (b : BackendOutcome)
    (hb : b = BackendOutcome.notOk ∨ b = BackendOutcome.unreachable) :
    detectPlatform "not-a-video" = "unknown" ∧
    analyzeRoute ytdl "not-a-video" = Except.error "Invalid Video URL" ∧
    (analyzeVideo gen "not-a-video" b proxy).1 = Except.error "Invalid URL" ∧
    (analyzeVideo gen "not-a-video" b proxy).2 = [NetCall.backendPost] := by
  rcases hb with rfl | rfl <;> exact ⟨rfl, rfl, rfl, rfl⟩

/-- Witness for C2 amended with the backend answering a non-ok status. -/
theorem invalid_url_rejected_witness :
    (BackendOutcome.notOk = BackendOutcome.notOk ∨
        BackendOutcome.notOk = BackendOutcome.unreachable) ∧
    detectPlatform "not-a-video" = "unknown" ∧
    analyzeRoute (fun _ => none) "not-a-video" = Except.error "Invalid Video URL" ∧
    (analyzeVideo (fun _ _ _ _ _ => ⟨[], []⟩) "not-a-video" BackendOutcome.notOk
        ProxyResponse.networkFail).1 = Except.error "Invalid URL" ∧
    (analyzeVideo (fun _ _ _ _ _ => ⟨[], []⟩) "not-a-video" BackendOutcome.notOk
        ProxyResponse.networkFail).2 = [NetCall.backendPost] :=
  ⟨Or.inl rfl,
   invalid_url_rejected (fun _ => none) ProxyResponse.networkFail (fun _ _ _ _ _ => ⟨[], []⟩)
     BackendOutcome.notOk (Or.inl rfl)⟩

/-- C8: in the client-local reduced path (backend unreachable or non-ok), when
the proxy metadata fetch also fails, fabrication runs with exactly the fixed
placeholder metadata (title Video (Offline Mode), author Unknown, duration 600,
category General) and the caller receives an ok VideoRecord built from the
placeholder and the fabricated pair, never an error. -/
theorem offline_placeholder (gen : String → String → Nat → String → String → FabResult)
    (url bvid : String) (hurl : extractBvid url = some bvid)
    (b : BackendOutcome)
    (hb : b = BackendOutcome.notOk ∨ b = BackendOutcome.unreachable)
    (proxy : ProxyResponse) (err : String)
    (hproxy : fetchBilibiliVideoInfo bvid proxy = Except.error err) :
    (analyzeVideo gen url b proxy).1 = Except.ok
      { data :=
          { platform := "bilibili", bvid := bvid, title := "Video (Offline Mode)",
            author := "Unknown", category := some "General", duration := 600,
            thumbnail := "",
            highlights := (gen "Video (Offline Mode)" "Could not fetch metadata." 600
                "General" "Unknown").highlights,
            transcript := (gen "Video (Offline Mode)" "Could not fetch metadata." 600
                "General" "Unknown").transcript,
            isTranscriptSimulated := true, isAiTranscribed := false },
        source := "ai-simulated" } := by
  rcases hb with rfl | rfl <;>
  · cases proxy with
    | networkFail =>
        unfold analyzeVideo
        rw [hurl]
        rfl
    | notOk =>
        unfold analyzeVideo
        rw [hurl]
        rfl
    | body code data =>
        by_cases hc : code = 0
        · exfalso
          rw [fetchBilibiliVideoInfo] at hproxy
          simp [hc] at hproxy
        · unfold analyzeVideo
          rw [hurl]
          simp only [fetchBilibiliVideoInfo]
          simp [hc]
          exact ⟨rfl, rfl, rfl, rfl, rfl, rfl⟩

/-- Witness for C8 at a concrete bare BV id with the proxy fetch rejecting. -/
theorem offline_placeholder_witness :
    extractBvid "BV1xy" = some "BV1xy" ∧
    (BackendOutcome.notOk = BackendOutcome.notOk ∨
        BackendOutcome.notOk = BackendOutcome.unreachable) ∧
    fetchBilibiliVideoInfo "BV1xy" ProxyResponse.networkFail = Except.error "fetch failed" ∧
    (analyzeVideo (fun _ _ _ _ _ => ⟨[], []⟩) "BV1xy" BackendOutcome.notOk
        ProxyResponse.networkFail).1 = Except.ok
      { data :=
          { platform := "bilibili", bvid := "BV1xy", title := "Video (Offline Mode)",
            author := "Unknown", category := some "General", duration := 600,
            thumbnail := "",
            highlights := ((fun _ _ _ _ _ => (⟨[], []⟩ : FabResult))
                "Video (Offline Mode)" "Could not fetch metadata." 600
                "General" "Unknown").highlights,
            transcript := ((fun _ _ _ _ _ => (⟨[], []⟩ : FabResult))
                "Video (Offline Mode)" "Could not fetch metadata." 600
                "General" "Unknown").transcript,
            isTranscriptSimulated := true, isAiTranscribed := false },
        source := "ai-simulated" } :=
  ⟨by decide, Or.inl rfl, rfl,
   offline_placeholder (fun _ _ _ _ _ => ⟨[], []⟩) "BV1xy" "BV1xy" (by decide)
     BackendOutcome.notOk (Or.inl rfl) ProxyResponse.networkFail "fetch failed" rfl⟩

/-- Characterization of the anchored match: it succeeds exactly on lists
starting with B, V and at least one alphanumeric, returning B, V and the
greedy alphanumeric run. -/
theorem bvMatchAt_eq_some {l r : List Char} :
    bvMatchAt l = some r ↔
      ∃ rest, l = 'B' :: 'V' :: rest ∧ bvRun rest ≠ [] ∧ r = 'B' :: 'V' :: bvRun rest := by
  cases l with
  | nil => simp [bvMatchAt]
  | cons b t =>
      cases t with
      | nil => simp [bvMatchAt]
      | cons v rest =>
          constructor
          · intro h
            rw [bvMatchAt] at h
            by_cases hb : b = 'B'
            · subst hb
              by_cases hv : v = 'V'
              · subst hv
                by_cases hrun : bvRun rest = []
                · simp [hrun] at h
                · simp [hrun] at h
                  exact ⟨rest, rfl, hrun, h.symm⟩
              · simp [hv] at h
            · simp [hb] at h
          · rintro ⟨rest2, heq, hne, rfl⟩
            injection heq with h1 h2
            injection h2 with h3 h4
            subst h1; subst h3; subst h4
            rw [bvMatchAt]
            simp [hne]

/-- The scan returns none exactly when the anchored match fails at every
position. -/
theorem bvScan_eq_none {l : List Char} :
    bvScan l = none ↔ ∀ i, bvMatchAt (l.drop i) = none := by
  induction l with
  | nil => simp [bvScan, bvMatchAt]
  | cons c t ih =>
      rw [bvScan]
      cases hm : bvMatchAt (c :: t) with
      | some r =>
          simp only [reduceCtorEq, false_iff, not_forall]
          exact ⟨0, by simpa using hm ▸ (by simp [hm])⟩
      | none =>
          simp only
          constructor
          · intro h i
            cases i with
            | zero => simpa using hm
            | succ j => simpa using ih.mp h j
          · intro hall
            exact ih.mpr fun j => by simpa using hall (j + 1)

/-- A successful scan is the anchored match at the leftmost position where any
anchored match succeeds. -/
theorem bvScan_eq_some {l r : List Char} (h : bvScan l = some r) :
    ∃ i, bvMatchAt (l.drop i) = some r ∧ ∀ j, j < i → bvMatchAt (l.drop j) = none := by
  induction l with
  | nil => simp [bvScan] at h
  | cons c t ih =>
      rw [bvScan] at h
      cases hm : bvMatchAt (c :: t) with
      | some r2 =>
          rw [hm] at h
          injection h with h2
          subst h2
          exact ⟨0, by simpa using hm, fun j hj => absurd hj (Nat.not_lt_zero j)⟩
      | none =>
          rw [hm] at h
          obtain ⟨i, hi, hj⟩ := ih h
          refine ⟨i + 1, by simpa using hi, fun j hjlt => ?_⟩
          cases j with
          | zero => simpa using hm
          | succ k => simpa using hj k (Nat.lt_of_succ_lt_succ hjlt)

/-- A successful anchored match satisfies the BV pattern and is a prefix of its
input. -/
theorem bvPattern_of_bvMatchAt {l r : List Char} (h : bvMatchAt l = some r) :
    bvPattern r ∧ ∃ post, l = r ++ post := by
  obtain ⟨rest, rfl, hne, rfl⟩ := bvMatchAt_eq_some.mp h
  refine ⟨⟨bvRun rest, rfl, hne, fun c hc => List.mem_takeWhile_imp hc⟩,
          rest.dropWhile isAlnumChar, ?_⟩
  simp [bvRun, List.cons_append, List.takeWhile_append_dropWhile]

/-- Conversely, a list starting with a BV-pattern substring admits an anchored
match. -/
theorem bvMatchAt_ne_none_of_pattern {mid post : List Char} (h : bvPattern mid) :
    bvMatchAt (mid ++ post) ≠ none := by
  obtain ⟨run, rfl, hne, hall⟩ := h
  cases run with
  | nil => exact absurd rfl hne
  | cons c cs =>
      have hc : isAlnumChar c = true := hall c (List.mem_cons_self c cs)
      intro hmatch
      rw [List.cons_append, List.cons_append, List.cons_append] at hmatch
      rw [bvMatchAt] at hmatch
      simp [bvRun, List.takeWhile_cons, hc] at hmatch

/-- Containing a BV-pattern substring is the same as some position admitting an
anchored match. -/
theorem hasBvSubstring_iff {l : List Char} :
    hasBvSubstring l ↔ ∃ i, bvMatchAt (l.drop i) ≠ none := by
  constructor
  · rintro ⟨pre, mid, post, rfl, hpat⟩
    refine ⟨pre.length, ?_⟩
    have hdrop : (pre ++ mid ++ post).drop pre.length = mid ++ post := by
      rw [List.append_assoc]
      simp
    rw [hdrop]
    exact bvMatchAt_ne_none_of_pattern hpat
  · rintro ⟨i, hi⟩
    cases hm : bvMatchAt (l.drop i) with
    | none => exact absurd hm hi
    | some r =>
        obtain ⟨hpat, post, hpost⟩ := bvPattern_of_bvMatchAt hm
        refine ⟨l.take i, r, post, ?_, hpat⟩
        calc l = l.take i ++ l.drop i := (List.take_append_drop i l).symm
          _ = l.take i ++ (r ++ post) := by rw [hpost]
          _ = l.take i ++ r ++ post := by rw [List.append_assoc]

/-- C9: extractBvid returns none exactly when the input contains no substring
of the form B, V, then one or more ASCII alphanumerics, wherever it occurs; and
a returned id satisfies that pattern, occurs in the input at the leftmost
position admitting a match, and is the greedy match there.  As a Lean function
of the input string it is pure and deterministic by construction. -/
theorem extractBvid_correct (s : String) :
    (extractBvid s = none ↔ ¬ hasBvSubstring s.data) ∧
    ∀ r : String, extractBvid s = some r →
      bvPattern r.data ∧
      ∃ i post, s.data = s.data.take i ++ r.data ++ post ∧
        bvMatchAt (s.data.drop i) = some r.data ∧
        ∀ j, j < i → bvMatchAt (s.data.drop j) = none := by
  constructor
  · rw [extractBvid, Option.map_eq_none', bvScan_eq_none, hasBvSubstring_iff]
    simp
  · intro r hr
    rw [extractBvid] at hr
    cases hscan : bvScan s.data with
    | none => rw [hscan] at hr; cases hr
    | some l =>
        rw [hscan] at hr
        injection hr with h2
        have hdata : r.data = l := by rw [← h2]
        obtain ⟨i, hi, hmin⟩ := bvScan_eq_some hscan
        have hmatch : bvMatchAt (s.data.drop i) = some r.data := by rw [hdata]; exact hi
        obtain ⟨hpat, post, hpost⟩ := bvPattern_of_bvMatchAt hmatch
        refine ⟨hpat, i, post, ?_, hmatch, hmin⟩
        calc s.data = s.data.take i ++ s.data.drop i := (List.take_append_drop i s.data).symm
          _ = s.data.take i ++ (r.data ++ post) := by rw [hpost]
          _ = s.data.take i ++ r.data ++ post := by rw [List.append_assoc]

/-- Witness for C9 at a concrete input with the id in mid-string position. -/
theorem extractBvid_correct_witness :
    extractBvid "watch BV12x now" = some "BV12x" ∧
    bvPattern ("BV12x" : String).data :=
  ⟨by decide, ((extractBvid_correct "watch BV12x now").2 "BV12x" (by decide)).1⟩
